import Mathlib

/-!
Verification of the tracking-server core: event ingestion (POST /v1/actions)
and analytics aggregation (GET /v1/analytics/:userId), shallowly embedded
from src/index.js. Timestamps are integers (milliseconds since epoch).
The store is a list of persisted events; Mongo's store-assigned identifier
is modelled as the insertion index.
-/

namespace TrackingServer

/-- A persisted `UserAction` document (src/index.js lines 44-62):
`userId` string, `action` string (schema enum restricts to read/write),
`timestamp` defaulting to creation time, plus the store-assigned id. -/
structure Event where
  userId : String
  action : String
  timestamp : Int
  id : Nat
deriving Repr, DecidableEq

/-- The persistent collection of events, in insertion order. -/
abbrev Store := List Event

/-- The JSON body of a track request. Only `userId` and `action` are read
by the handler (destructuring of `req.body`); a caller-supplied
`timestamp` field is carried here to show it is ignored. -/
structure ReqBody where
  userId : Option String
  action : Option String
  timestamp : Option Int
deriving Repr, DecidableEq

/-- Environment configuration: `NODE_ENV === 'production'` and the
optional `API_KEY` variable. -/
structure Env where
  production : Bool
  apiKey : Option String
deriving Repr, DecidableEq

/-- The allowed action values (`['read', 'write']` in both the route check
and the schema enum). -/
def validActions : List String := ["read", "write"]

/-- The `validateAPIKey` middleware (src/index.js lines 75-81): in
production mode the request is rejected when the `x-api-key` header does
not strictly equal `process.env.API_KEY`. -/
def apiKeyRejects (env : Env) (header : Option String) : Bool :=
  env.production && header != env.apiKey

/-- Outcome of POST /v1/actions, by HTTP status and body shape. -/
inductive TrackResponse where
  /-- 400, `Missing required fields`. -/
  | missingFields
  /-- 400, `Invalid action type` with `validActions`. -/
  | invalidAction
  /-- 201, success with `actionId` and `timestamp`. -/
  | created (actionId : Nat) (timestamp : Int)
  /-- 500, `Internal server error` (e.g. a Mongoose validation failure
  thrown by `save()`). -/
  | internalError
  /-- 401, `Invalid API key`. -/
  | unauthorized
deriving Repr, DecidableEq

/-- The schema-level validation that `save()` performs (src/index.js
lines 44-62): `userId` requires `minlength: 4` and `maxlength: 100`;
`action` must be in the enum. -/
def schemaAccepts (userId action : String) : Prop :=
  4 ≤ userId.length ∧ userId.length ≤ 100 ∧ action ∈ validActions

instance (u a : String) : Decidable (schemaAccepts u a) := by
  unfold schemaAccepts; infer_instance

/-- The POST /v1/actions handler body after the API-key middleware
(src/index.js lines 88-126): reject missing fields (JS truthiness: absent
or empty string), reject actions outside `['read','write']`, otherwise
construct the event with `timestamp` set to the current time and `save()`
it; a schema validation failure is caught as a 500. -/
def trackCore (body : ReqBody) (now : Int) (store : Store) :
    TrackResponse × Store :=
  match body.userId, body.action with
  | some u, some a =>
    if u = "" ∨ a = "" then (.missingFields, store)
    else if a ∈ validActions then
      if schemaAccepts u a then
        let e : Event := ⟨u, a, now, store.length⟩
        (.created e.id e.timestamp, store ++ [e])
      else (.internalError, store)
    else (.invalidAction, store)
  | _, _ => (.missingFields, store)

/-- The full POST /v1/actions route: `validateAPIKey` then the handler. -/
def trackHandler (env : Env) (header : Option String) (body : ReqBody)
    (now : Int) (store : Store) : TrackResponse × Store :=
  if apiKeyRejects env header then (.unauthorized, store)
  else trackCore body now store

/-- JavaScript `parseInt` (radix unspecified): skip leading whitespace,
optional sign, `0x`/`0X` prefix means hexadecimal, otherwise decimal;
take the longest digit prefix; `NaN` (here `none`) when no digits. -/
def parseIntJs (s : String) : Option Int :=
  let cs := s.toList.dropWhile
    (fun c => c = ' ' ∨ c = '\t' ∨ c = '\n' ∨ c = '\r')
  let signed : Int × List Char :=
    match cs with
    | '-' :: rest => (-1, rest)
    | '+' :: rest => (1, rest)
    | _ => (1, cs)
  let sign := signed.1
  let body := signed.2
  let hexDigit : Char → Prop := fun c =>
    c.isDigit = true ∨ ('a' ≤ c ∧ c ≤ 'f') ∨ ('A' ≤ c ∧ c ≤ 'F')
  let hexVal : Char → Nat := fun c =>
    if c.isDigit then c.toNat - 48
    else if 'a' ≤ c ∧ c ≤ 'f' then c.toNat - 87
    else c.toNat - 55
  let num : Nat → List Char → Nat := fun radix ds =>
    ds.foldl (fun n c => n * radix + hexVal c) 0
  match body with
  | '0' :: x :: rest =>
    if x = 'x' ∨ x = 'X' then
      let ds := rest.takeWhile (fun c => decide (hexDigit c))
      if ds.isEmpty then none else some (sign * num 16 ds)
    else
      some (sign * num 10 (('0' :: x :: rest).takeWhile Char.isDigit))
  | _ =>
    let ds := body.takeWhile Char.isDigit
    if ds.isEmpty then none else some (sign * num 10 ds)

/-- The period parsing of GET /v1/analytics/:userId (src/index.js lines
132-136): query parameter defaulting to `'30d'`, then
`parseInt(period) || 30` — `NaN` and `0` are falsy and fall back to 30;
every other integer (negatives included) is kept. -/
def periodDaysOf (period : Option String) : Int :=
  match parseIntJs (period.getD "30d") with
  | none => 30
  | some n => if n = 0 then 30 else n

/-- One day in milliseconds (`24 * 60 * 60 * 1000`). -/
def dayMs : Int := 24 * 60 * 60 * 1000

/-- `new Date(Date.now() - periodDays * 24 * 60 * 60 * 1000)`. -/
def startDateOf (now periodDays : Int) : Int := now - periodDays * dayMs

/-- The `$match` stage: events of this user whose `timestamp` satisfies
`$gte: startDate` (inclusive). -/
def windowEvents (store : Store) (userId : String) (startDate : Int) :
    List Event :=
  store.filter (fun e => decide (e.userId = userId ∧ startDate ≤ e.timestamp))

/-- Per-group `lastActivity`: `$max` over the group's timestamps,
absent (`null`) for an empty group. -/
def maxTimestamp : List Event → Option Int
  | [] => none
  | e :: es => some (es.foldl (fun m x => max m x.timestamp) e.timestamp)

/-- The summary the handler reports for one action key:
a `count` and a `lastActivity`. -/
structure Summary where
  count : Nat
  lastActivity : Option Int
deriving Repr, DecidableEq

/-- The `$group` stage restricted to one action value, merged with the
handler's default: the group's `$sum: 1` count and `$max` timestamp when
events exist, else count 0 and `lastActivity` null. -/
def summarize (events : List Event) (a : String) : Summary :=
  let g := events.filter (fun e => decide (e.action = a))
  ⟨g.length, maxTimestamp g⟩

/-- The analytics payload: the handler always builds an object with both
keys `read` and `write` (src/index.js lines 168-178). -/
structure AnalyticsData where
  read : Summary
  write : Summary
deriving Repr, DecidableEq

/-- The aggregation pipeline plus response formatting of
GET /v1/analytics/:userId (src/index.js lines 134-178). -/
def aggregateData (store : Store) (userId : String) (now periodDays : Int) :
    AnalyticsData :=
  let w := windowEvents store userId (startDateOf now periodDays)
  ⟨summarize w "read", summarize w "write"⟩

/-- Outcome of GET /v1/analytics/:userId. -/
inductive AnalyticsResponse where
  /-- 200, success with the analytics data. -/
  | ok (data : AnalyticsData)
  /-- 401, `Invalid API key`. -/
  | unauthorized
deriving Repr, DecidableEq

/-- The full GET /v1/analytics/:userId route: `validateAPIKey`, then the
aggregation, which reads the store and never writes it. -/
def analyticsHandler (env : Env) (header : Option String) (userId : String)
    (period : Option String) (now : Int) (store : Store) :
    AnalyticsResponse × Store :=
  if apiKeyRejects env header then (.unauthorized, store)
  else (.ok (aggregateData store userId now (periodDaysOf period)), store)

/-- The operations of the core that touch the store. -/
inductive Request where
  | track (body : ReqBody)
  | analytics (userId : String) (period : Option String)

/-- The store after serving one request. -/
def step (req : Request) (env : Env) (header : Option String) (now : Int)
    (store : Store) : Store :=
  match req with
  | .track body => (trackHandler env header body now store).2
  | .analytics u p => (analyticsHandler env header u p now store).2

/-- The data-model invariant claimed by the spec for persisted events. -/
def EventOk (e : Event) : Prop :=
  e.userId ≠ "" ∧ e.action ∈ validActions

/-- All persisted events satisfy the invariant. -/
def StoreOk (store : Store) : Prop := ∀ e ∈ store, EventOk e

/-! ## Helper lemmas -/

/-- Filtering the window by an action value equals one combined filter. -/
theorem windowEvents_filter_action (store : Store) (u a : String)
    (start : Int) :
    (windowEvents store u start).filter (fun e => decide (e.action = a))
      = store.filter (fun e =>
          decide (e.userId = u ∧ e.action = a ∧ start ≤ e.timestamp)) := by
  unfold windowEvents
  rw [List.filter_filter]
  apply List.filter_congr
  intro e _
  by_cases h1 : e.userId = u <;> by_cases h2 : e.action = a <;>
    by_cases h3 : start ≤ e.timestamp <;> simp [h1, h2, h3]

/-- The group maximum is the maximum of the mapped timestamps. -/
theorem maxTimestamp_eq_max (g : List Event) :
    maxTimestamp g = (g.map Event.timestamp).max? := by
  cases g with
  | nil => rfl
  | cons e es =>
    simp [maxTimestamp, List.max?, List.foldl_map]

/-- Closed form of one action's summary in the aggregation result. -/
theorem summarize_window_eq (store : Store) (u a : String) (now p : Int) :
    summarize (windowEvents store u (startDateOf now p)) a
      = ⟨(store.filter (fun e =>
            decide (e.userId = u ∧ e.action = a
              ∧ now - p * dayMs ≤ e.timestamp))).length,
         ((store.filter (fun e =>
            decide (e.userId = u ∧ e.action = a
              ∧ now - p * dayMs ≤ e.timestamp))).map Event.timestamp).max?⟩ := by
  show (⟨_, _⟩ : Summary) = _
  rw [windowEvents_filter_action, maxTimestamp_eq_max]
  rfl

/-- The `read` field of the aggregation result, in closed form. -/
theorem aggregateData_read (store : Store) (u : String) (now p : Int) :
    (aggregateData store u now p).read
      = ⟨(store.filter (fun e =>
            decide (e.userId = u ∧ e.action = "read"
              ∧ now - p * dayMs ≤ e.timestamp))).length,
         ((store.filter (fun e =>
            decide (e.userId = u ∧ e.action = "read"
              ∧ now - p * dayMs ≤ e.timestamp))).map Event.timestamp).max?⟩ :=
  summarize_window_eq store u "read" now p

/-- The `write` field of the aggregation result, in closed form. -/
theorem aggregateData_write (store : Store) (u : String) (now p : Int) :
    (aggregateData store u now p).write
      = ⟨(store.filter (fun e =>
            decide (e.userId = u ∧ e.action = "write"
              ∧ now - p * dayMs ≤ e.timestamp))).length,
         ((store.filter (fun e =>
            decide (e.userId = u ∧ e.action = "write"
              ∧ now - p * dayMs ≤ e.timestamp))).map Event.timestamp).max?⟩ :=
  summarize_window_eq store u "write" now p

/-! ## Claims -/

/-- Claim C1: for every `userId` and every action in read/write, the count
that `aggregate` returns for that action equals the exact number of
persisted events whose `userId` matches and whose `timestamp` lies within
the trailing window, and the `lastActivity` it returns equals the maximum
timestamp among those events (`none` when there are none, since
`List.max?` of the empty list is `none`). -/
theorem C1_aggregate_exact_counts_and_last_activity
    (store : Store) (u : String) (now p : Int) :
    ((aggregateData store u now p).read.count
        = (store.filter (fun e =>
            decide (e.userId = u ∧ e.action = "read"
              ∧ now - p * dayMs ≤ e.timestamp))).length)
    ∧ ((aggregateData store u now p).read.lastActivity
        = ((store.filter (fun e =>
            decide (e.userId = u ∧ e.action = "read"
              ∧ now - p * dayMs ≤ e.timestamp))).map Event.timestamp).max?)
    ∧ ((aggregateData store u now p).write.count
        = (store.filter (fun e =>
            decide (e.userId = u ∧ e.action = "write"
              ∧ now - p * dayMs ≤ e.timestamp))).length)
    ∧ ((aggregateData store u now p).write.lastActivity
        = ((store.filter (fun e =>
            decide (e.userId = u ∧ e.action = "write"
              ∧ now - p * dayMs ≤ e.timestamp))).map Event.timestamp).max?) := by
  rw [aggregateData_read, aggregateData_write]
  exact ⟨rfl, rfl, rfl, rfl⟩

/-- Claim C2: the aggregation result always carries both keys (it is built
from the two-field default object); an action with no matching events is
reported as count 0, `lastActivity` null, and a user with no events at all
gets both defaults. -/
theorem C2_both_keys_default_to_zero_null
    (store : Store) (u : String) (now p : Int) :
    ((∀ e ∈ store, ¬(e.userId = u ∧ e.action = "read"
        ∧ now - p * dayMs ≤ e.timestamp)) →
      (aggregateData store u now p).read = ⟨0, none⟩)
    ∧ ((∀ e ∈ store, ¬(e.userId = u ∧ e.action = "write"
        ∧ now - p * dayMs ≤ e.timestamp)) →
      (aggregateData store u now p).write = ⟨0, none⟩)
    ∧ ((∀ e ∈ store, e.userId ≠ u) →
      aggregateData store u now p = ⟨⟨0, none⟩, ⟨0, none⟩⟩) := by
  have hr := aggregateData_read store u now p
  have hw := aggregateData_write store u now p
  refine ⟨?_, ?_, ?_⟩
  · intro h
    rw [hr]
    have : store.filter (fun e =>
        decide (e.userId = u ∧ e.action = "read"
          ∧ now - p * dayMs ≤ e.timestamp)) = [] := by
      rw [List.filter_eq_nil_iff]
      intro e he
      simpa using h e he
    rw [this]; rfl
  · intro h
    rw [hw]
    have : store.filter (fun e =>
        decide (e.userId = u ∧ e.action = "write"
          ∧ now - p * dayMs ≤ e.timestamp)) = [] := by
      rw [List.filter_eq_nil_iff]
      intro e he
      simpa using h e he
    rw [this]; rfl
  · intro h
    have hfil : ∀ a : String, store.filter (fun e =>
        decide (e.userId = u ∧ e.action = a
          ∧ now - p * dayMs ≤ e.timestamp)) = [] := by
      intro a
      rw [List.filter_eq_nil_iff]
      intro e he
      simp only [decide_eq_true_eq, not_and]
      intro hu
      exact absurd hu (h e he)
    have h1 := hr; have h2 := hw
    rw [hfil "read"] at h1
    rw [hfil "write"] at h2
    cases hag : aggregateData store u now p with
    | mk r w =>
      rw [hag] at h1 h2
      simp only at h1 h2
      rw [h1, h2]
      rfl

/-- Witness for C2 at a store whose only event belongs to another user. -/
theorem C2_both_keys_default_to_zero_null_witness :
    aggregateData [⟨"other-user", "read", 0, 0⟩] "u1" 0 30
      = ⟨⟨0, none⟩, ⟨0, none⟩⟩ :=
  (C2_both_keys_default_to_zero_null [⟨"other-user", "read", 0, 0⟩]
    "u1" 0 30).2.2 (by decide)

/-- Claim C8: the analytics route reads the store and never writes it, so
two calls with identical arguments and no intervening writes (the second
call running on the state the first one left) return identical results. -/
theorem C8_aggregate_read_only_and_idempotent (env : Env)
    (header : Option String) (u : String) (period : Option String)
    (now : Int) (store : Store) :
    (analyticsHandler env header u period now store).2 = store
    ∧ (analyticsHandler env header u period now
        ((analyticsHandler env header u period now store).2)).1
      = (analyticsHandler env header u period now store).1 := by
  have hst : (analyticsHandler env header u period now store).2 = store := by
    unfold analyticsHandler
    split <;> rfl
  exact ⟨hst, by rw [hst]⟩

/-- Claim C3: with `periodDays = 30` the `$gte` filter admits exactly the
events whose timestamp is at least `now - 30` days (inclusive boundary);
an event at `now - 31` days is excluded, one at `now - 1` day is included,
and one exactly at `now - 30` days is included; count and `lastActivity`
are both computed from that filtered set. -/
theorem C3_thirty_day_window_inclusive_boundary
    (store : Store) (u : String) (now : Int) :
    ((aggregateData store u now 30).read.count
        = (store.filter (fun e =>
            decide (e.userId = u ∧ e.action = "read"
              ∧ now - 30 * dayMs ≤ e.timestamp))).length)
    ∧ ((aggregateData store u now 30).read.lastActivity
        = ((store.filter (fun e =>
            decide (e.userId = u ∧ e.action = "read"
              ∧ now - 30 * dayMs ≤ e.timestamp))).map Event.timestamp).max?)
    ∧ ((aggregateData store u now 30).write.count
        = (store.filter (fun e =>
            decide (e.userId = u ∧ e.action = "write"
              ∧ now - 30 * dayMs ≤ e.timestamp))).length)
    ∧ ((aggregateData store u now 30).write.lastActivity
        = ((store.filter (fun e =>
            decide (e.userId = u ∧ e.action = "write"
              ∧ now - 30 * dayMs ≤ e.timestamp))).map Event.timestamp).max?)
    ∧ (∀ e ∈ store, e.userId = u →
        (e ∈ windowEvents store u (startDateOf now 30)
          ↔ now - 30 * dayMs ≤ e.timestamp))
    ∧ (∀ e ∈ store, e.userId = u → e.timestamp = now - 31 * dayMs →
        e ∉ windowEvents store u (startDateOf now 30))
    ∧ (∀ e ∈ store, e.userId = u → e.timestamp = now - 1 * dayMs →
        e ∈ windowEvents store u (startDateOf now 30))
    ∧ (∀ e ∈ store, e.userId = u → e.timestamp = now - 30 * dayMs →
        e ∈ windowEvents store u (startDateOf now 30)) := by
  have hmem : ∀ e ∈ store, e.userId = u →
      (e ∈ windowEvents store u (startDateOf now 30)
        ↔ now - 30 * dayMs ≤ e.timestamp) := by
    intro e he hu
    unfold windowEvents startDateOf
    rw [List.mem_filter]
    simp [he, hu]
  refine ⟨(aggregateData_read store u now 30) ▸ rfl,
    (aggregateData_read store u now 30) ▸ rfl,
    (aggregateData_write store u now 30) ▸ rfl,
    (aggregateData_write store u now 30) ▸ rfl,
    hmem, ?_, ?_, ?_⟩
  · intro e he hu hts
    rw [hmem e he hu, hts]
    unfold dayMs
    omega
  · intro e he hu hts
    rw [hmem e he hu, hts]
    unfold dayMs
    omega
  · intro e he hu hts
    rw [hmem e he hu, hts]

/-- Witness for C3 on a two-event store holding one event exactly 31 days
old and one exactly 1 day old (with `now = 0`). -/
theorem C3_thirty_day_window_inclusive_boundary_witness :
    (⟨"u1", "read", -31 * dayMs, 0⟩ : Event)
        ∉ windowEvents
          [⟨"u1", "read", -31 * dayMs, 0⟩, ⟨"u1", "read", -1 * dayMs, 1⟩]
          "u1" (startDateOf 0 30)
    ∧ (⟨"u1", "read", -1 * dayMs, 1⟩ : Event)
        ∈ windowEvents
          [⟨"u1", "read", -31 * dayMs, 0⟩, ⟨"u1", "read", -1 * dayMs, 1⟩]
          "u1" (startDateOf 0 30) := by
  have h := C3_thirty_day_window_inclusive_boundary
    [⟨"u1", "read", -31 * dayMs, 0⟩, ⟨"u1", "read", -1 * dayMs, 1⟩] "u1" 0
  constructor
  · exact h.2.2.2.2.2.1 ⟨"u1", "read", -31 * dayMs, 0⟩
      (by simp) rfl (by unfold dayMs; norm_num)
  · exact h.2.2.2.2.2.2.1 ⟨"u1", "read", -1 * dayMs, 1⟩
      (by simp) rfl (by unfold dayMs; norm_num)

/-- Claim C4: when `userId` and `action` are both present but `action` is
outside read/write (for example `delete`), the track handler answers 400
with the `Invalid action type` body and the store is unchanged. -/
theorem C4_invalid_action_rejected_nothing_persisted
    (u a : String) (ts : Option Int) (now : Int) (store : Store)
    (hu : u ≠ "") (ha : a ≠ "") (hna : a ∉ validActions) :
    trackCore ⟨some u, some a, ts⟩ now store
      = (.invalidAction, store) := by
  unfold trackCore
  simp [hu, ha, hna]

/-- Witness for C4 at the spec's example action `delete`. -/
theorem C4_invalid_action_rejected_nothing_persisted_witness :
    trackCore ⟨some "user1", some "delete", none⟩ 0 []
      = (.invalidAction, []) :=
  C4_invalid_action_rejected_nothing_persisted "user1" "delete" none 0 []
    (by decide) (by decide) (by decide)

/-- Claim C5 counterexample: the claim says every non-positive `period`
falls back to 30, but `parseInt(period) || 30` keeps negative values — a
negative integer parses successfully and is truthy in JavaScript, so
`period = "-5"` yields `periodDays = -5`, not 30. -/
theorem C5_counterexample_negative_period_kept :
    periodDaysOf (some "-5") = -5 ∧ ((-5 : Int) ≠ 30) := by
  constructor
  · rfl
  · decide

/-- Claim C5 as amended: an absent `period` (the default string `30d`
parses to 30), a non-numeric one (`parseInt` gives `NaN`, falsy), and the
value zero (falsy) all fall back to `periodDays = 30` without rejection;
any other parsed integer — negative ones included — is used as-is. -/
theorem C5_amended_period_fallback (s : String) :
    (periodDaysOf none = 30)
    ∧ (parseIntJs s = none → periodDaysOf (some s) = 30)
    ∧ (parseIntJs s = some 0 → periodDaysOf (some s) = 30)
    ∧ (∀ n : Int, parseIntJs s = some n → n ≠ 0 →
        periodDaysOf (some s) = n) := by
  refine ⟨rfl, ?_, ?_, ?_⟩
  · intro h
    unfold periodDaysOf
    simp [h]
  · intro h
    unfold periodDaysOf
    simp [h]
  · intro n h hn
    unfold periodDaysOf
    simp [h, hn]

/-- Witness for the amended C5: a non-numeric string and the string `0`
fall back to 30, while `7` parses and is kept. -/
theorem C5_amended_period_fallback_witness :
    periodDaysOf (some "abc") = 30
    ∧ periodDaysOf (some "0") = 30
    ∧ periodDaysOf (some "7") = 7 :=
  ⟨(C5_amended_period_fallback "abc").2.1 rfl,
   (C5_amended_period_fallback "0").2.2.1 rfl,
   (C5_amended_period_fallback "7").2.2.2 7 rfl (by decide)⟩

/-- Claim C6 counterexample: the claim promises success for every
non-empty `userId` with a valid action, but the schema's `minlength: 4`
makes `save()` throw for the two-character `userId` `ab`: the route
answers 500 and persists nothing. -/
theorem C6_counterexample_short_user_id :
    trackCore ⟨some "ab", some "read", none⟩ 0 []
      = (.internalError, []) := by
  decide

/-- Claim C6 as amended: for every `userId` the schema accepts (length
between 4 and 100) and every action in read/write, the track handler
succeeds with 201, appends exactly one event carrying that `userId`,
that `action`, the call-time timestamp (a caller-supplied `timestamp`
field is ignored, so the stored timestamp equals — hence is not earlier
than — the call's start time), and returns the store-assigned id together
with that timestamp. -/
theorem C6_amended_record_appends_one_event
    (u a : String) (ts : Option Int) (now : Int) (store : Store)
    (hlen : 4 ≤ u.length) (hmax : u.length ≤ 100)
    (ha : a ∈ validActions) :
    trackCore ⟨some u, some a, ts⟩ now store
      = (.created store.length now,
         store ++ [⟨u, a, now, store.length⟩]) := by
  have hu : u ≠ "" := by
    intro h
    rw [h] at hlen
    simp at hlen
  have hae : a ≠ "" := by
    intro h
    rw [h] at ha
    simp [validActions] at ha
  unfold trackCore
  simp [hu, hae, ha, schemaAccepts, hlen, hmax]

/-- Witness for the amended C6: a four-character `userId`, a supplied
`timestamp` field of 999 that is ignored, call time 5. -/
theorem C6_amended_record_appends_one_event_witness :
    trackCore ⟨some "user", some "read", some 999⟩ 5 []
      = (.created 0 5, [⟨"user", "read", 5, 0⟩]) :=
  C6_amended_record_appends_one_event "user" "read" (some 999) 5 []
    (by decide) (by decide) (by decide)

/-- The track handler either leaves the store unchanged or appends one
event whose fields passed both the route checks and the schema. -/
theorem trackCore_state (body : ReqBody) (now : Int) (store : Store) :
    (trackCore body now store).2 = store
    ∨ ∃ u a, u ≠ "" ∧ a ∈ validActions
        ∧ (trackCore body now store).2
          = store ++ [⟨u, a, now, store.length⟩] := by
  obtain ⟨ou, oa, ots⟩ := body
  cases ou with
  | none => left; cases oa <;> rfl
  | some u =>
    cases oa with
    | none => left; rfl
    | some a =>
      by_cases h1 : u = "" ∨ a = ""
      · left; simp [trackCore, h1]
      · by_cases h2 : a ∈ validActions
        · by_cases h3 : schemaAccepts u a
          · right
            refine ⟨u, a, fun he => h1 (Or.inl he), h2, ?_⟩
            simp [trackCore, h1, h2, h3]
          · left; simp [trackCore, h1, h2, h3]
        · left; simp [trackCore, h1, h2]

/-- Claim C7: every reachable store state satisfies the data-model
invariant — each persisted event has a non-empty `userId` and an action
in read/write — because the track route is the only writer (it appends
only validated events) and the analytics route never writes; no update or
delete operation exists in the core. -/
theorem C7_invariant_preserved_by_every_operation
    (req : Request) (env : Env) (header : Option String) (now : Int)
    (store : Store) (h : StoreOk store) :
    StoreOk (step req env header now store) := by
  cases req with
  | analytics u p =>
    by_cases hc : apiKeyRejects env header = true <;>
      simp only [step, analyticsHandler, hc, if_true, if_false,
        Bool.false_eq_true, if_neg, reduceIte] <;>
      exact h
  | track body =>
    unfold step trackHandler
    by_cases hc : apiKeyRejects env header = true
    · simp only [hc, if_true]
      exact h
    · simp only [hc, Bool.false_eq_true, if_false]
      rcases trackCore_state body now store with h2 | ⟨u, a, hu, ha, h2⟩
      · rw [h2]; exact h
      · rw [h2]
        intro e he
        rcases List.mem_append.mp he with he | he
        · exact h e he
        · rw [List.mem_singleton.mp he]
          exact ⟨hu, ha⟩

/-- Witness for C7: one valid track request served on the empty store. -/
theorem C7_invariant_preserved_by_every_operation_witness :
    StoreOk (step (.track ⟨some "user1", some "read", none⟩)
      ⟨false, none⟩ none 0 []) :=
  C7_invariant_preserved_by_every_operation
    (.track ⟨some "user1", some "read", none⟩) ⟨false, none⟩ none 0 []
    (fun e he => absurd he (List.not_mem_nil e))

/-- Claim C9: the schema of src/index.js additionally restricts `userId`
length to 4..100, so a non-empty `userId` shorter than 4 (or longer than
100) with a valid action passes both route-level checks but fails at
`save()`: the route answers 500 and the store is unchanged. -/
theorem C9_schema_length_restriction_yields_500
    (u a : String) (ts : Option Int) (now : Int) (store : Store)
    (hu : u ≠ "") (hlen : u.length < 4 ∨ 100 < u.length)
    (ha : a ∈ validActions) :
    trackCore ⟨some u, some a, ts⟩ now store = (.internalError, store) := by
  have hae : a ≠ "" := by
    intro h
    rw [h] at ha
    simp [validActions] at ha
  have hschema : ¬ schemaAccepts u a := by
    rintro ⟨h4, h100, -⟩
    rcases hlen with h | h <;> omega
  unfold trackCore
  simp [hu, hae, ha, hschema]

/-- Witness for C9 at the two-character `userId` `ab`. -/
theorem C9_schema_length_restriction_yields_500_witness :
    trackCore ⟨some "ab", some "write", none⟩ 0 []
      = (.internalError, []) :=
  C9_schema_length_restriction_yields_500 "ab" "write" none 0 []
    (by decide) (by decide) (by decide)

/-- Claim C10: in production mode, a request to either protected route
whose `x-api-key` header is absent or differs from the configured key is
answered 401 with the store untouched, before any body validation (the
body here is arbitrary) or store access; in non-production mode the
middleware passes every request through unchanged. -/
theorem C10_api_key_gate (env : Env) (header : Option String)
    (body : ReqBody) (u : String) (period : Option String) (now : Int)
    (store : Store) :
    ((env.production = true → ∀ k, env.apiKey = some k → header ≠ some k →
        trackHandler env header body now store = (.unauthorized, store)
        ∧ analyticsHandler env header u period now store
            = (.unauthorized, store)))
    ∧ (env.production = false →
        trackHandler env header body now store = trackCore body now store
        ∧ analyticsHandler env header u period now store
            = (.ok (aggregateData store u now (periodDaysOf period)),
               store)) := by
  constructor
  · intro hprod k hk hne
    have hrej : apiKeyRejects env header = true := by
      unfold apiKeyRejects
      rw [hprod, hk]
      simp [hne]
    constructor
    · unfold trackHandler
      rw [hrej]
      rfl
    · unfold analyticsHandler
      rw [hrej]
      rfl
  · intro hprod
    have hrej : apiKeyRejects env header = false := by
      unfold apiKeyRejects
      rw [hprod]
      rfl
    constructor
    · unfold trackHandler
      rw [hrej]
      rfl
    · unfold analyticsHandler
      rw [hrej]
      rfl

/-- Witness for C10: production mode with key `secret` and no header
rejects both routes with 401 and an unchanged (empty) store. -/
theorem C10_api_key_gate_witness :
    trackHandler ⟨true, some "secret"⟩ none
        ⟨some "user1", some "read", none⟩ 0 [] = (.unauthorized, [])
    ∧ analyticsHandler ⟨true, some "secret"⟩ none "user1" none 0 []
        = (.unauthorized, []) :=
  (C10_api_key_gate ⟨true, some "secret"⟩ none
    ⟨some "user1", some "read", none⟩ "user1" none 0 []).1
    rfl "secret" rfl (by decide)

end TrackingServer
